import Mathlib

/-!
Verification of the renovation pricing engine.

This file is a shallow embedding of the pricing core
(`pricing_engine.py`, `pricing_logic/material_db.py`,
`pricing_logic/labor_calc.py`, `pricing_logic/vat_rules.py`) into Lean 4.
Numbers are modelled by `ℚ`; the reference tables are translated literally;
dictionary lookups that can fail in the source are modelled by `Option`.
`round2`/`round3`/`round1` model rounding to a fixed number of decimals
(nearest value, ties upward; no statement proved below depends on the
behaviour at an exact half-way tie).
-/

/-- Rounding to 2 decimal places, as used throughout the engine. -/
def round2 (x : ℚ) : ℚ := (round (100 * x) : ℤ) / 100

/-- Rounding to 3 decimal places (used for rates). -/
def round3 (x : ℚ) : ℚ := (round (1000 * x) : ℤ) / 1000

/-- Rounding to 1 decimal place (used for duration in days). -/
def round1 (x : ℚ) : ℚ := (round (10 * x) : ℤ) / 10

/-- Python's `str.lower`, modelled structurally (character-wise ASCII
lowercasing; all city and country keys in the reference tables are ASCII). -/
def strLower (s : String) : String := String.mk (s.data.map Char.toLower)

/-! ## material_db.py -/

/-- One tier record of `MaterialDB.materials_data`: an optional flat
`base_cost`, an optional `cost_per_m2`, and the item list. -/
structure MaterialTier where
  base_cost : Option ℚ
  cost_per_m2 : Option ℚ
  items : List String
deriving DecidableEq

/-- `MaterialDB.materials_data`: per task, the association list of budget
tiers.  `none` models a task absent from the dictionary. -/
def materials_data : String → Option (List (String × MaterialTier))
  | "tile_removal" => some
      [("budget_conscious", ⟨none, some 15.0, ["disposal bags", "protective sheets"]⟩),
       ("standard", ⟨none, some 20.0, ["disposal bags", "protective sheets", "cleaning supplies"]⟩),
       ("premium", ⟨none, some 25.0, ["eco-friendly disposal", "premium protection", "deep cleaning"]⟩)]
  | "plumbing" => some
      [("budget_conscious", ⟨some 180.0, some 25.0, ["basic pipes", "standard fittings", "sealants"]⟩),
       ("standard", ⟨some 250.0, some 35.0, ["quality pipes", "standard fittings", "premium sealants", "shutoff valves"]⟩),
       ("premium", ⟨some 400.0, some 50.0, ["premium pipes", "brass fittings", "high-end fixtures", "smart shutoffs"]⟩)]
  | "toilet_replacement" => some
      [("budget_conscious", ⟨some 120.0, none, ["basic toilet", "wax ring", "bolts", "supply line"]⟩),
       ("standard", ⟨some 280.0, none, ["mid-range toilet", "wax ring", "stainless bolts", "braided supply line"]⟩),
       ("premium", ⟨some 650.0, none, ["high-end toilet", "premium wax ring", "brass bolts", "premium supply line", "bidet features"]⟩)]
  | "vanity_installation" => some
      [("budget_conscious", ⟨some 200.0, some 15.0, ["basic vanity", "standard sink", "basic faucet", "mounting hardware"]⟩),
       ("standard", ⟨some 450.0, some 25.0, ["quality vanity", "ceramic sink", "mid-range faucet", "quality hardware", "mirror"]⟩),
       ("premium", ⟨some 900.0, some 40.0, ["custom vanity", "designer sink", "premium faucet", "soft-close drawers", "LED mirror"]⟩)]
  | "painting" => some
      [("budget_conscious", ⟨none, some 8.0, ["basic paint", "primer", "brushes", "drop cloths"]⟩),
       ("standard", ⟨none, some 12.0, ["quality paint", "premium primer", "quality brushes", "painter tape", "drop cloths"]⟩),
       ("premium", ⟨none, some 18.0, ["premium paint", "high-end primer", "professional brushes", "specialty finishes", "complete protection"]⟩)]
  | "floor_installation" => some
      [("budget_conscious", ⟨none, some 35.0, ["basic ceramic tiles", "standard adhesive", "basic grout", "spacers"]⟩),
       ("standard", ⟨none, some 55.0, ["quality ceramic tiles", "premium adhesive", "quality grout", "leveling systems", "sealer"]⟩),
       ("premium", ⟨none, some 85.0, ["designer tiles", "premium adhesive", "epoxy grout", "leveling systems", "premium sealer", "trim pieces"]⟩)]
  | "general_renovation" => some
      [("budget_conscious", ⟨none, some 50.0, ["basic materials", "standard supplies"]⟩),
       ("standard", ⟨none, some 80.0, ["quality materials", "complete supplies", "finishing materials"]⟩),
       ("premium", ⟨none, some 120.0, ["premium materials", "high-end supplies", "luxury finishes"]⟩)]
  | _ => none

/-- `MaterialDB.get_material_cost`.  For an unknown task the cost is
`room_size * base_cost_per_m2.get(budget_preference, 50)`; for a known task
the tier record is indexed directly (a `KeyError` for an unknown tier is
modelled by `none`), and the cost is the optional base cost plus the
optional per-m² cost times the room size. -/
def get_material_cost (task : String) (room_size : ℚ) (budget_preference : String) : Option ℚ :=
  match materials_data task with
  | none =>
      some (room_size *
        (([("budget_conscious", (30 : ℚ)), ("standard", 50), ("premium", 80)].lookup
            budget_preference).getD 50))
  | some tiers =>
      (tiers.lookup budget_preference).map (fun td =>
        td.base_cost.getD 0 +
          (match td.cost_per_m2 with
           | some c => c * room_size
           | none => 0))

/-! ## labor_calc.py -/

/-- One record of `LaborCalculator.labor_hours_data`. -/
structure LaborTask where
  base_hours : ℚ
  hours_per_m2 : ℚ
  difficulty_multiplier : ℚ
  skill_level : String
deriving DecidableEq

/-- `LaborCalculator.labor_hours_data`. -/
def labor_hours_data : String → Option LaborTask
  | "tile_removal" => some ⟨2.0, 1.5, 1.0, "general"⟩
  | "plumbing" => some ⟨4.0, 2.5, 1.4, "specialized"⟩
  | "toilet_replacement" => some ⟨3.0, 0.0, 1.1, "general"⟩
  | "vanity_installation" => some ⟨4.0, 1.0, 1.2, "general"⟩
  | "painting" => some ⟨1.0, 0.8, 0.9, "general"⟩
  | "floor_installation" => some ⟨3.0, 2.0, 1.3, "specialized"⟩
  | "general_renovation" => some ⟨8.0, 3.0, 1.0, "general"⟩
  | _ => none

/-- `LaborCalculator.hourly_rates`: per city, rates keyed by skill level. -/
def hourly_rates : String → Option (List (String × ℚ))
  | "paris" => some [("general", 45.0), ("specialized", 65.0), ("expert", 85.0)]
  | "marseille" => some [("general", 35.0), ("specialized", 50.0), ("expert", 70.0)]
  | "lyon" => some [("general", 40.0), ("specialized", 58.0), ("expert", 78.0)]
  | "toulouse" => some [("general", 32.0), ("specialized", 46.0), ("expert", 65.0)]
  | "nice" => some [("general", 42.0), ("specialized", 60.0), ("expert", 80.0)]
  | "nantes" => some [("general", 38.0), ("specialized", 54.0), ("expert", 74.0)]
  | "bordeaux" => some [("general", 39.0), ("specialized", 56.0), ("expert", 76.0)]
  | _ => none

/-- `LaborCalculator.complexity_multipliers`. -/
def complexity_multipliers : String → Option ℚ
  | "small_room" => some 1.1
  | "standard_room" => some 1.0
  | "large_room" => some 0.95
  | "difficult_access" => some 1.3
  | "old_building" => some 1.2
  | "new_construction" => some 0.9
  | _ => none

/-- `LaborCalculator.calculate_labor_hours`.  For an unknown task the
fallback `max(4.0, room_size * 2.0)` is returned directly (note: without
rounding).  Otherwise the base formula is scaled by every supplied
complexity factor that names a configured multiplier, then by the
`small_room` / `large_room` multiplier, and rounded to 2 decimals. -/
def calculate_labor_hours (task : String) (room_size : ℚ)
    (complexity_factors : List String) : ℚ :=
  match labor_hours_data task with
  | none => max 4.0 (room_size * 2.0)
  | some td =>
      let total_hours := (td.base_hours + td.hours_per_m2 * room_size) * td.difficulty_multiplier
      let total_hours := complexity_factors.foldl
        (fun acc f =>
          match complexity_multipliers f with
          | some m => acc * m
          | none => acc) total_hours
      let total_hours :=
        if room_size < 5 then total_hours * ((complexity_multipliers "small_room").getD 1)
        else if room_size > 15 then total_hours * ((complexity_multipliers "large_room").getD 1)
        else total_hours
      round2 total_hours

/-- `LaborCalculator.get_hourly_rate`: lowercases the city, substitutes
`marseille` when unknown, resolves the task's skill level (default
`general`), and indexes the rate table. -/
def get_hourly_rate (city : String) (task : String) : Option ℚ :=
  let city_lower := strLower city
  let city_lower := if (hourly_rates city_lower).isSome then city_lower else "marseille"
  let skill_level :=
    match labor_hours_data task with
    | some td => td.skill_level
    | none => "general"
  (hourly_rates city_lower).bind (fun rates => rates.lookup skill_level)

/-! ## vat_rules.py -/

/-- `VATCalculator.vat_rates`: per country, the category → rate table. -/
def vat_rates : String → Option (List (String × ℚ))
  | "france" => some [("standard", 0.20), ("reduced", 0.10), ("super_reduced", 0.055), ("zero", 0.0)]
  | "germany" => some [("standard", 0.19), ("reduced", 0.07), ("zero", 0.0)]
  | "spain" => some [("standard", 0.21), ("reduced", 0.10), ("super_reduced", 0.04), ("zero", 0.0)]
  | "italy" => some [("standard", 0.22), ("reduced", 0.10), ("super_reduced", 0.04), ("zero", 0.0)]
  | _ => none

/-- `VATCalculator.task_vat_categories`: per task, the country → category
table. -/
def task_vat_categories : String → Option (List (String × String))
  | "tile_removal" => some [("france", "reduced"), ("germany", "standard"), ("spain", "reduced"), ("italy", "reduced")]
  | "plumbing" => some [("france", "reduced"), ("germany", "standard"), ("spain", "reduced"), ("italy", "reduced")]
  | "toilet_replacement" => some [("france", "standard"), ("germany", "standard"), ("spain", "standard"), ("italy", "standard")]
  | "vanity_installation" => some [("france", "standard"), ("germany", "standard"), ("spain", "standard"), ("italy", "standard")]
  | "painting" => some [("france", "reduced"), ("germany", "standard"), ("spain", "reduced"), ("italy", "reduced")]
  | "floor_installation" => some [("france", "reduced"), ("germany", "standard"), ("spain", "reduced"), ("italy", "reduced")]
  | "general_renovation" => some [("france", "reduced"), ("germany", "standard"), ("spain", "reduced"), ("italy", "reduced")]
  | "energy_efficiency" => some [("france", "super_reduced"), ("germany", "reduced"), ("spain", "super_reduced"), ("italy", "super_reduced")]
  | _ => none

/-- `vat_conditions['energy_certification']`: country → override category. -/
def energy_certification : String → Option String
  | "france" => some "super_reduced"
  | "germany" => some "reduced"
  | "spain" => some "super_reduced"
  | "italy" => some "super_reduced"
  | _ => none

/-- `vat_conditions['accessibility_improvements']`: country → override
category. -/
def accessibility_improvements : String → Option String
  | "france" => some "super_reduced"
  | "germany" => some "reduced"
  | "spain" => some "super_reduced"
  | "italy" => some "super_reduced"
  | _ => none

/-- The special conditions accepted by `get_vat_rate`; absent keys of the
Python dict are the `False`/`0` defaults of the `.get` calls. -/
structure VatConditions where
  energy_efficiency : Bool := false
  accessibility_improvements : Bool := false
  building_age_years : ℚ := 0
deriving DecidableEq

/-- `VATCalculator._apply_vat_conditions`. -/
def apply_vat_conditions (base_category country : String) (c : VatConditions) : String :=
  if c.energy_efficiency then (energy_certification country).getD base_category
  else if c.accessibility_improvements then
    (accessibility_improvements country).getD base_category
  else if country = "france" ∧ c.building_age_years > 2 then
    (if base_category = "standard" then "reduced" else base_category)
  else base_category

/-- `VATCalculator.get_vat_rate`: lowercases the country (default
`france` when unknown), resolves the task's VAT category (default
`standard`), applies the condition overrides when conditions were
supplied, and indexes the country's rate table. -/
def get_vat_rate (task country : String) (conditions : Option VatConditions) : Option ℚ :=
  let country_lower := strLower country
  let country_lower := if (vat_rates country_lower).isSome then country_lower else "france"
  let vat_category :=
    match task_vat_categories task with
    | some m => (m.lookup country_lower).getD "standard"
    | none => "standard"
  let vat_category :=
    match conditions with
    | some c => apply_vat_conditions vat_category country_lower c
    | none => vat_category
  (vat_rates country_lower).bind (fun rates => rates.lookup vat_category)

/-! ## pricing_engine.py -/

/-- `SmartPricingEngine.city_multipliers` (looked up case-sensitively). -/
def city_multipliers : String → Option ℚ
  | "paris" => some 1.25
  | "marseille" => some 1.0
  | "lyon" => some 1.15
  | "toulouse" => some 0.95
  | "nice" => some 1.20
  | "nantes" => some 1.05
  | "bordeaux" => some 1.10
  | _ => none

/-- `self.base_margin`. -/
def base_margin : ℚ := 0.20

/-- `self.margin_protection_min`. -/
def margin_protection_min : ℚ := 0.15

/-- `SmartPricingEngine._calculate_dynamic_margin`.  The `subtotal`
argument is accepted exactly as in the source and never read. -/
def calculate_dynamic_margin (task budget_pref : String) (_subtotal : ℚ) : ℚ :=
  let m := base_margin
  let m := if budget_pref = "budget_conscious" then m * 0.8
           else if budget_pref = "premium" then m * 1.3
           else m
  let complex_tasks := ["plumbing", "tile_removal", "floor_installation"]
  let m := if task ∈ complex_tasks then m * 1.1 else m
  max m margin_protection_min

/-- The per-task record returned by
`SmartPricingEngine._calculate_task_pricing` (the `city_multiplier` key is
added later by `generate_quote`; before that step it is 1). -/
structure TaskPricing where
  task_name : String
  materials_cost : ℚ
  labor_hours : ℚ
  labor_rate : ℚ
  labor_cost : ℚ
  subtotal : ℚ
  margin_rate : ℚ
  margin_amount : ℚ
  vat_rate : ℚ
  vat_amount : ℚ
  total_price : ℚ
  estimated_duration_days : ℚ
  city_multiplier : ℚ := 1
deriving DecidableEq

/-- `SmartPricingEngine._calculate_task_pricing`. -/
def calculate_task_pricing (task : String) (room_size : ℚ) (location : String)
    (budget_pref : String) : Option TaskPricing := do
  let materials_cost ← get_material_cost task room_size budget_pref
  let labor_hours := calculate_labor_hours task room_size []
  let labor_rate ← get_hourly_rate location task
  let labor_cost := labor_hours * labor_rate
  let subtotal := materials_cost + labor_cost
  let margin_rate := calculate_dynamic_margin task budget_pref subtotal
  let margin_amount := subtotal * margin_rate
  let subtotal_with_margin := subtotal + margin_amount
  let vat_rate ← get_vat_rate task "france" none
  let vat_amount := subtotal_with_margin * vat_rate
  let total_price := subtotal_with_margin + vat_amount
  pure
    { task_name := task
      materials_cost := round2 materials_cost
      labor_hours := labor_hours
      labor_rate := labor_rate
      labor_cost := round2 labor_cost
      subtotal := round2 subtotal
      margin_rate := round3 margin_rate
      margin_amount := round2 margin_amount
      vat_rate := round3 vat_rate
      vat_amount := round2 vat_amount
      total_price := round2 total_price
      estimated_duration_days := round1 (labor_hours / 8) }

/-- `SmartPricingEngine._calculate_average_margin` over the stored task
records. -/
def calculate_average_margin (zone_tasks : List TaskPricing) : ℚ :=
  if zone_tasks = [] then 0
  else round3 ((zone_tasks.map TaskPricing.margin_rate).sum / zone_tasks.length)

/-- The structured input produced by the (out-of-scope) transcript parser
and consumed by `generate_quote`. -/
structure ParsedInput where
  location : String
  budget_preference : String
  room_type : String
  room_size : ℚ
  tasks : List String
  confidence_flags : List String

/-- `SmartPricingEngine._calculate_confidence_score` (the `zone_tasks`
argument of the source method is never read). -/
def calculate_confidence_score (p : ParsedInput) : ℚ :=
  let confidence : ℚ := 1.0
  let confidence :=
    if p.confidence_flags ≠ [] then confidence - 0.1 * p.confidence_flags.length
    else confidence
  let confidence := if p.tasks.length < 3 then confidence - 0.1 else confidence
  let confidence :=
    if p.room_size < 2 ∨ p.room_size > 30 then confidence - 0.15 else confidence
  let confidence :=
    if (city_multipliers p.location).isSome then confidence + 0.05 else confidence
  max 0.0 (min 1.0 (round2 confidence))

/-- The quote summary block built by `generate_quote`. -/
structure QuoteSummary where
  total_materials : ℚ
  total_labor : ℚ
  subtotal_before_vat : ℚ
  total_vat : ℚ
  total_price : ℚ
  city_multiplier : ℚ
  average_margin : ℚ
deriving DecidableEq

/-- The pricing content of a quote: the per-task dictionary (one entry per
distinct task name, in association-list form), the rounded zone total, the
summary, and the confidence score. -/
structure Quote where
  zone_tasks : List (String × TaskPricing)
  zone_total : ℚ
  summary : QuoteSummary
  confidence_score : ℚ

/-- The in-place update `zone_tasks[task]['total_price'] *= city_multiplier`
(plus the recorded `city_multiplier` key) of `generate_quote`, as a record
update. -/
def scale_task (city_multiplier : ℚ) (tp : TaskPricing) : TaskPricing :=
  { tp with total_price := tp.total_price * city_multiplier
            city_multiplier := city_multiplier }

/-- Option-valued traversal of a list (the per-task pricing loop of
`generate_quote`); `none` as soon as one element fails. -/
def traverseOpt {α β : Type} (f : α → Option β) : List α → Option (List β)
  | [] => some []
  | a :: l => (f a).bind fun b => (traverseOpt f l).map fun l' => b :: l'

/-- `SmartPricingEngine.generate_quote`, from the parsed input onward
(quote id, timestamps and the echoed client/project blocks carry no
logic and are omitted).  The Python `zone_tasks` dict holds one entry per
distinct task name; since `_calculate_task_pricing` is deterministic, the
value stored for a duplicated name equals the one computed for its other
occurrences, so the dict is modelled as the deduplicated key list paired
with the per-key pricing, while `zone_total` accumulates over the task
list with multiplicity. -/
def generate_quote (p : ParsedInput) : Option Quote := do
  let price := fun t => calculate_task_pricing t p.room_size p.location p.budget_preference
  let priced ← traverseOpt price p.tasks
  let distinct ← traverseOpt price p.tasks.dedup
  let city_multiplier := (city_multipliers p.location).getD 1.0
  let zone_total := (priced.map TaskPricing.total_price).sum * city_multiplier
  let scaled := distinct.map (scale_task city_multiplier)
  let total_materials := (scaled.map TaskPricing.materials_cost).sum
  let total_labor := (scaled.map TaskPricing.labor_cost).sum
  let total_before_vat := total_materials + total_labor
  let total_vat := (scaled.map TaskPricing.vat_amount).sum
  pure
    { zone_tasks := p.tasks.dedup.zip scaled
      zone_total := round2 zone_total
      summary :=
        { total_materials := round2 (total_materials * city_multiplier)
          total_labor := round2 (total_labor * city_multiplier)
          subtotal_before_vat := round2 (total_before_vat * city_multiplier)
          total_vat := round2 (total_vat * city_multiplier)
          total_price := round2 zone_total
          city_multiplier := city_multiplier
          average_margin := calculate_average_margin scaled }
      confidence_score := calculate_confidence_score p }

/-! ## Rounding lemmas -/

lemma round_mono {x y : ℚ} (h : x ≤ y) : round x ≤ round y := by
  rw [round_eq, round_eq]
  exact Int.floor_le_floor (by linarith)

lemma round2_mono {x y : ℚ} (h : x ≤ y) : round2 x ≤ round2 y := by
  unfold round2
  have h1 : round (100 * x) ≤ round (100 * y) := round_mono (by linarith)
  have h2 : ((round (100 * x) : ℤ) : ℚ) ≤ ((round (100 * y) : ℤ) : ℚ) := by exact_mod_cast h1
  linarith

lemma round2_zero : round2 0 = 0 := by
  unfold round2
  norm_num

lemma round2_one : round2 1 = 1 := by
  unfold round2
  rw [show (100 : ℚ) * 1 = ((100 : ℤ) : ℚ) by norm_num, round_intCast]
  norm_num

lemma abs_round2_sub (x : ℚ) : |round2 x - x| ≤ 1 / 200 := by
  have h := abs_sub_round (100 * x)
  rw [abs_sub_comm] at h
  unfold round2
  have e : (round (100 * x) : ℚ) / 100 - x = ((round (100 * x) : ℚ) - 100 * x) / 100 := by
    ring
  rw [e, abs_div]
  have h100 : |(100 : ℚ)| = 100 := by norm_num
  rw [h100]
  linarith

lemma clamp_round2_comm (x : ℚ) :
    max 0 (min 1 (round2 x)) = round2 (max 0 (min 1 x)) := by
  rcases le_total x 0 with hx | hx
  · have h1 : round2 x ≤ 0 := by simpa [round2_zero] using round2_mono hx
    rw [min_eq_right (h1.trans (by norm_num)), max_eq_left h1,
        min_eq_right (hx.trans (by norm_num)), max_eq_left hx, round2_zero]
  · rcases le_total 1 x with hx1 | hx1
    · have h1 : 1 ≤ round2 x := by simpa [round2_one] using round2_mono hx1
      rw [min_eq_left h1, min_eq_left hx1,
          max_eq_right (by norm_num : (0 : ℚ) ≤ 1), round2_one]
    · have h1 : 0 ≤ round2 x := by simpa [round2_zero] using round2_mono hx
      have h2 : round2 x ≤ 1 := by simpa [round2_one] using round2_mono hx1
      rw [min_eq_right h2, max_eq_right h1, min_eq_right hx1, max_eq_right hx]

/-! ## C1: dynamic margin -/

/-- C1: for every task, budget preference and subtotal, the margin rate
equals `max(0.20 · t · c, 0.15)` with `t = 0.8/1.3/1` by budget tier and
`c = 1.1` exactly for the complex tasks; hence it is at least `0.15`, and
it does not depend on the subtotal argument. -/
theorem dynamic_margin_spec (task budget_pref : String) (subtotal : ℚ) :
    calculate_dynamic_margin task budget_pref subtotal =
      max (0.20 *
        (if budget_pref = "budget_conscious" then 0.8
         else if budget_pref = "premium" then 1.3 else 1) *
        (if task ∈ ["plumbing", "tile_removal", "floor_installation"] then 1.1 else 1))
        0.15 ∧
    0.15 ≤ calculate_dynamic_margin task budget_pref subtotal ∧
    ∀ subtotal' : ℚ, calculate_dynamic_margin task budget_pref subtotal' =
      calculate_dynamic_margin task budget_pref subtotal := by
  have h1 : calculate_dynamic_margin task budget_pref subtotal =
      max (0.20 *
        (if budget_pref = "budget_conscious" then 0.8
         else if budget_pref = "premium" then 1.3 else 1) *
        (if task ∈ ["plumbing", "tile_removal", "floor_installation"] then 1.1 else 1))
        0.15 := by
    unfold calculate_dynamic_margin base_margin margin_protection_min
    simp only [List.mem_cons, List.not_mem_nil, or_false]
    split_ifs <;> (rw [max_eq_left (by norm_num)]; try norm_num)
  refine ⟨h1, ?_, fun _ => rfl⟩
  rw [h1]
  exact le_max_right _ _

/-! ## C8: confidence score -/

/-- C8: the confidence score equals 1.0 minus 0.1 per confidence flag,
minus 0.1 when fewer than 3 tasks were identified, minus 0.15 when the
room size is outside [2, 30], plus 0.05 when the location is a known
city, clamped to [0, 1] and rounded to 2 decimals; in particular it
always lies in [0, 1]. -/
theorem confidence_score_spec (p : ParsedInput) :
    calculate_confidence_score p =
      round2 (max 0 (min 1
        (1 - 0.1 * p.confidence_flags.length
          - (if p.tasks.length < 3 then 0.1 else 0)
          - (if p.room_size < 2 ∨ p.room_size > 30 then 0.15 else 0)
          + (if (city_multipliers p.location).isSome then 0.05 else 0)))) ∧
    0 ≤ calculate_confidence_score p ∧ calculate_confidence_score p ≤ 1 := by
  have hraw : calculate_confidence_score p =
      max 0 (min 1 (round2
        (1 - 0.1 * p.confidence_flags.length
          - (if p.tasks.length < 3 then 0.1 else 0)
          - (if p.room_size < 2 ∨ p.room_size > 30 then 0.15 else 0)
          + (if (city_multipliers p.location).isSome then 0.05 else 0)))) := by
    unfold calculate_confidence_score
    split_ifs <;> simp_all <;> ring_nf
  refine ⟨hraw.trans (clamp_round2_comm _), ?_, ?_⟩
  · rw [hraw]
    exact le_max_left 0 _
  · rw [hraw]
    exact max_le (by norm_num) (min_le_left _ _)

/-! ## C5: labor hours -/

lemma foldl_complexity (l : List String) (x : ℚ) :
    l.foldl (fun acc f =>
      match complexity_multipliers f with
      | some m => acc * m
      | none => acc) x = x * (l.filterMap complexity_multipliers).prod := by
  induction l generalizing x with
  | nil => simp
  | cons a l ih =>
      cases h : complexity_multipliers a <;> (simp [h, ih]; try ring)

/-- C5 (amended): for a configured task, the labor hours are
`(base_hours + hours_per_m2·room_size)·difficulty_multiplier`, times the
product of the configured multipliers of the supplied complexity factors,
times the small-room multiplier when `room_size < 5` or else the
large-room multiplier when `room_size > 15`, rounded to 2 decimals; for an
unconfigured task the fallback `max(4.0, room_size·2.0)` is returned
without rounding. -/
theorem labor_hours_spec (task : String) (room_size : ℚ)
    (complexity_factors : List String) :
    calculate_labor_hours task room_size complexity_factors =
      match labor_hours_data task with
      | none => max 4.0 (room_size * 2.0)
      | some td =>
          round2 ((td.base_hours + td.hours_per_m2 * room_size) * td.difficulty_multiplier
            * ((complexity_factors.filterMap complexity_multipliers).prod)
            * (if room_size < 5 then 1.1
               else if room_size > 15 then 0.95 else 1)) := by
  unfold calculate_labor_hours
  cases h : labor_hours_data task with
  | none => rfl
  | some td =>
      have hs : (complexity_multipliers "small_room").getD 1 = 1.1 := rfl
      have hl : (complexity_multipliers "large_room").getD 1 = 0.95 := rfl
      simp only [foldl_complexity, hs, hl]
      split_ifs <;> (congr 1 <;> try ring)

/-- C5 counterexample: for the unconfigured task `demolition` and room
size 2.0005 m², `calculate_labor_hours` returns 4.001, not the claimed
2-decimal rounding of the fallback value. -/
theorem labor_hours_round_cex :
    calculate_labor_hours "demolition" (4001 / 2000) [] ≠
      round2 (max 4.0 ((4001 / 2000 : ℚ) * 2.0)) := by
  have h : calculate_labor_hours "demolition" (4001 / 2000) [] =
      max 4.0 ((4001 / 2000 : ℚ) * 2.0) := rfl
  rw [h]
  have e1 : max (4.0 : ℚ) ((4001 / 2000) * 2.0) = 4001 / 1000 := by
    rw [max_eq_right (by norm_num)]
    norm_num
  rw [e1]
  unfold round2
  have e2 : round ((100 : ℚ) * (4001 / 1000)) = 400 := by
    rw [round_eq]
    norm_num
  rw [e2]
  norm_num

/-! ## C4: the painting example, evaluated -/

lemma materials_painting : get_material_cost "painting" 10 "standard" = some 120 := by
  simp [get_material_cost, materials_data, List.lookup]
  norm_num

lemma hours_painting : calculate_labor_hours "painting" 10 [] = 8.1 := by
  simp only [calculate_labor_hours, labor_hours_data, List.foldl_nil]
  rw [if_neg (by norm_num), if_neg (by norm_num)]
  unfold round2
  rw [round_eq]
  norm_num

lemma rate_paris_painting : get_hourly_rate "paris" "painting" = some 45 := by
  have h : strLower "paris" = "paris" := by decide
  simp [get_hourly_rate, hourly_rates, labor_hours_data, List.lookup, h]
  norm_num

lemma vat_painting : get_vat_rate "painting" "france" none = some 0.10 := rfl

lemma margin_painting_standard (s : ℚ) :
    calculate_dynamic_margin "painting" "standard" s = 0.2 := by
  simp [calculate_dynamic_margin, base_margin, margin_protection_min]
  try norm_num

lemma pricing_painting_eval :
    calculate_task_pricing "painting" 10 "paris" "standard" =
      some ⟨"painting", 120, 8.1, 45, 364.5, 484.5, 0.2, 96.9, 0.1, 58.14, 639.54, 1.0, 1⟩ := by
  simp only [calculate_task_pricing, materials_painting, hours_painting, rate_paris_painting,
    vat_painting, margin_painting_standard, Option.some_bind, bind, Option.bind]
  norm_num [round2, round3, round1, round_eq]

lemma quote_painting_eval :
    (generate_quote ⟨"paris", "standard", "bathroom", 10, ["painting"], []⟩).map
      Quote.zone_tasks =
      some [("painting",
        ⟨"painting", 120, 8.1, 45, 364.5, 484.5, 0.2, 96.9, 0.1, 58.14, 799.425, 1.0, 1.25⟩)] := by
  simp only [generate_quote, traverseOpt, List.dedup_nil, List.dedup_cons_of_not_mem,
    List.not_mem_nil, not_false_iff, pricing_painting_eval, Option.some_bind, bind,
    Option.bind, Option.map_some, city_multipliers, Option.getD_some, List.map_cons,
    List.map_nil, List.zip_cons_cons, List.zip_nil_right, pure]
  norm_num [scale_task]

/-- C4 (amended): for task `painting`, room size 10, standard budget and
location `paris`, the pipeline yields labor_hours 8.1, labor_rate 45,
labor_cost 364.5, materials_cost 120, subtotal 484.5, margin_rate 0.20
with margin_amount 96.9, vat_rate 0.10 with vat_amount 58.14, pre-city
total_price 639.54, and with city multiplier 1.25 a stored per-task
total_price of 639.54 × 1.25 = 799.425 (the engine does not round the
per-task total after applying the multiplier). -/
theorem quote_painting_example :
    calculate_task_pricing "painting" 10 "paris" "standard" =
      some ⟨"painting", 120, 8.1, 45, 364.5, 484.5, 0.2, 96.9, 0.1, 58.14, 639.54, 1.0, 1⟩ ∧
    city_multipliers "paris" = some 1.25 ∧
    (generate_quote ⟨"paris", "standard", "bathroom", 10, ["painting"], []⟩).map
      Quote.zone_tasks =
      some [("painting",
        ⟨"painting", 120, 8.1, 45, 364.5, 484.5, 0.2, 96.9, 0.1, 58.14, 799.425, 1.0, 1.25⟩)] ∧
    (639.54 * 1.25 : ℚ) = 799.425 :=
  ⟨pricing_painting_eval, by simp [city_multipliers], quote_painting_eval,
    by norm_num⟩

/-- C4 counterexample: in the painting example the stored per-task
`total_price` is 799.425, not 799.43 — `generate_quote` multiplies the
stored per-task total in place without rounding it again. -/
theorem quote_painting_total_cex :
    (generate_quote ⟨"paris", "standard", "bathroom", 10, ["painting"], []⟩).map
      (fun q => q.zone_tasks.map (fun kv => kv.2.total_price)) = some [799.425] ∧
    (799.425 : ℚ) ≠ 799.43 := by
  constructor
  · have hmm : ∀ (o : Option Quote),
        o.map (fun q => q.zone_tasks.map (fun kv => kv.2.total_price)) =
          (o.map Quote.zone_tasks).map (List.map (fun kv => kv.2.total_price)) := by
      intro o
      cases o <;> rfl
    rw [hmm, quote_painting_eval]
    norm_num
  · norm_num

/-! ## C3: the per-task pricing identity -/

lemma margin_closed_form (task budget_pref : String) (s : ℚ) :
    calculate_dynamic_margin task budget_pref s =
      max (0.20 *
        (if budget_pref = "budget_conscious" then 0.8
         else if budget_pref = "premium" then 1.3 else 1) *
        (if task ∈ ["plumbing", "tile_removal", "floor_installation"] then 1.1 else 1))
        0.15 := by
  unfold calculate_dynamic_margin base_margin margin_protection_min
  simp only [List.mem_cons, List.not_mem_nil, or_false]
  split_ifs <;> (rw [max_eq_left (by norm_num)]; try norm_num)

lemma margin_cases (task budget_pref : String) (s : ℚ) :
    calculate_dynamic_margin task budget_pref s = 0.16 ∨
    calculate_dynamic_margin task budget_pref s = 0.176 ∨
    calculate_dynamic_margin task budget_pref s = 0.2 ∨
    calculate_dynamic_margin task budget_pref s = 0.22 ∨
    calculate_dynamic_margin task budget_pref s = 0.26 ∨
    calculate_dynamic_margin task budget_pref s = 0.286 := by
  rw [margin_closed_form]
  split_ifs <;> (rw [max_eq_left (by norm_num)]; norm_num)

lemma margin_bounds (task budget_pref : String) (s : ℚ) :
    0.15 ≤ calculate_dynamic_margin task budget_pref s ∧
    calculate_dynamic_margin task budget_pref s ≤ 0.286 ∧
    round3 (calculate_dynamic_margin task budget_pref s) =
      calculate_dynamic_margin task budget_pref s := by
  rcases margin_cases task budget_pref s with h | h | h | h | h | h <;> rw [h] <;>
    exact ⟨by norm_num, by norm_num, by norm_num [round3, round_eq]⟩

lemma task_vat_categories_inv {t : String} {row : List (String × String)}
    (h : task_vat_categories t = some row) :
    row = [("france", "reduced"), ("germany", "standard"), ("spain", "reduced"),
      ("italy", "reduced")] ∨
    row = [("france", "standard"), ("germany", "standard"), ("spain", "standard"),
      ("italy", "standard")] ∨
    row = [("france", "super_reduced"), ("germany", "reduced"), ("spain", "super_reduced"),
      ("italy", "super_reduced")] := by
  unfold task_vat_categories at h
  split at h <;> simp_all

lemma vat_france_cases (task : String) :
    get_vat_rate task "france" none = some 0.20 ∨
    get_vat_rate task "france" none = some 0.10 ∨
    get_vat_rate task "france" none = some 0.055 := by
  cases h : task_vat_categories task with
  | none =>
      left
      simp only [get_vat_rate, h]
      rfl
  | some row =>
      rcases task_vat_categories_inv h with rfl | rfl | rfl <;> simp only [get_vat_rate, h]
      · exact Or.inr (Or.inl rfl)
      · exact Or.inl rfl
      · exact Or.inr (Or.inr rfl)

lemma hourly_rates_inv {s : String} {tbl : List (String × ℚ)}
    (h : hourly_rates s = some tbl) :
    tbl = [("general", 45.0), ("specialized", 65.0), ("expert", 85.0)] ∨
    tbl = [("general", 35.0), ("specialized", 50.0), ("expert", 70.0)] ∨
    tbl = [("general", 40.0), ("specialized", 58.0), ("expert", 78.0)] ∨
    tbl = [("general", 32.0), ("specialized", 46.0), ("expert", 65.0)] ∨
    tbl = [("general", 42.0), ("specialized", 60.0), ("expert", 80.0)] ∨
    tbl = [("general", 38.0), ("specialized", 54.0), ("expert", 74.0)] ∨
    tbl = [("general", 39.0), ("specialized", 56.0), ("expert", 76.0)] := by
  unfold hourly_rates at h
  split at h <;> simp_all

lemma labor_hours_data_inv {t : String} {td : LaborTask}
    (h : labor_hours_data t = some td) :
    td = ⟨2.0, 1.5, 1.0, "general"⟩ ∨
    td = ⟨4.0, 2.5, 1.4, "specialized"⟩ ∨
    td = ⟨3.0, 0.0, 1.1, "general"⟩ ∨
    td = ⟨4.0, 1.0, 1.2, "general"⟩ ∨
    td = ⟨1.0, 0.8, 0.9, "general"⟩ ∨
    td = ⟨3.0, 2.0, 1.3, "specialized"⟩ ∨
    td = ⟨8.0, 3.0, 1.0, "general"⟩ := by
  unfold labor_hours_data at h
  split at h <;> simp_all

lemma skill_level_cases (task : String) :
    (match labor_hours_data task with
     | some td => td.skill_level
     | none => "general") = "general" ∨
    (match labor_hours_data task with
     | some td => td.skill_level
     | none => "general") = "specialized" := by
  cases h : labor_hours_data task with
  | none => exact Or.inl rfl
  | some td =>
      rcases labor_hours_data_inv h with rfl | rfl | rfl | rfl | rfl | rfl | rfl <;>
        first | exact Or.inl rfl | exact Or.inr rfl

lemma get_hourly_rate_total (city task : String) :
    ∃ r, get_hourly_rate city task = some r ∧ 32 ≤ r := by
  simp only [get_hourly_rate]
  cases hh : hourly_rates (strLower city) with
  | none =>
      rcases skill_level_cases task with h | h <;>
        rw [h] <;> simp only [hh, Option.isSome_none, Bool.false_eq_true, if_false] <;>
          refine ⟨_, rfl, by norm_num⟩
  | some tbl =>
      rcases hourly_rates_inv hh with rfl | rfl | rfl | rfl | rfl | rfl | rfl <;>
        rcases skill_level_cases task with h | h <;>
          rw [h] <;> simp only [hh, Option.isSome_some, if_true, Option.some_bind] <;>
            refine ⟨_, rfl, by norm_num⟩

lemma round2_product_bound (M L m v : ℚ) (hm1 : 0.15 ≤ m) (hm2 : m ≤ 0.286)
    (hv1 : 0 ≤ v) (hv2 : v ≤ 0.2) :
    |round2 ((M + L) + (M + L) * m + ((M + L) + (M + L) * m) * v) -
      (round2 M + round2 L) * (1 + m) * (1 + v)| ≤ 21 / 1000 := by
  have hA := abs_round2_sub M
  have hB := abs_round2_sub L
  have hC := abs_round2_sub ((M + L) + (M + L) * m + ((M + L) + (M + L) * m) * v)
  rw [abs_le] at hA hB hC
  have hQ1 : (0 : ℚ) < (1 + m) * (1 + v) := by nlinarith
  have hQ2 : (1 + m) * (1 + v) ≤ 15432 / 10000 := by nlinarith
  have hD1 : -(1 / 100) ≤ (round2 M - M) + (round2 L - L) := by linarith [hA.1, hB.1]
  have hD2 : (round2 M - M) + (round2 L - L) ≤ 1 / 100 := by linarith [hA.2, hB.2]
  have hP1 : ((round2 M - M) + (round2 L - L)) * ((1 + m) * (1 + v)) ≤ 15432 / 1000000 := by
    nlinarith [mul_nonneg
      (by linarith : (0 : ℚ) ≤ 1 / 100 - ((round2 M - M) + (round2 L - L)))
      (le_of_lt hQ1)]
  have hP2 : -(15432 / 1000000) ≤ ((round2 M - M) + (round2 L - L)) * ((1 + m) * (1 + v)) := by
    nlinarith [mul_nonneg
      (by linarith : (0 : ℚ) ≤ ((round2 M - M) + (round2 L - L)) + 1 / 100)
      (le_of_lt hQ1)]
  rw [abs_le]
  constructor <;> nlinarith [hC.1, hC.2, hP1, hP2]

/-- C3 (amended): for every record returned by `_calculate_task_pricing`,
the stored fields satisfy
`total_price = (materials_cost + labor_cost)·(1 + margin_rate)·(1 + vat_rate)`
within `2.1e-2` (not `1e-2`: the materials and labor fields are rounded
independently of the total, and the three rounding errors can add up to
about `0.0204`). -/
theorem task_pricing_tolerance (task : String) (room_size : ℚ)
    (location budget_pref : String) :
    ∀ tp, calculate_task_pricing task room_size location budget_pref = some tp →
      |tp.total_price -
        (tp.materials_cost + tp.labor_cost) * (1 + tp.margin_rate) * (1 + tp.vat_rate)| ≤
        21 / 1000 := by
  intro tp h
  rcases hM : get_material_cost task room_size budget_pref with _ | M
  · simp [calculate_task_pricing, hM] at h
  · obtain ⟨R, hR, -⟩ := get_hourly_rate_total location task
    have hv3 : ∃ v, get_vat_rate task "france" none = some v ∧
        0 ≤ v ∧ v ≤ 0.2 ∧ round3 v = v := by
      rcases vat_france_cases task with hv | hv | hv <;>
        exact ⟨_, hv, by norm_num, by norm_num, by norm_num [round3, round_eq]⟩
    obtain ⟨v, hv, hv0, hv2, hvr⟩ := hv3
    have hmb := margin_bounds task budget_pref
      (M + calculate_labor_hours task room_size [] * R)
    simp only [calculate_task_pricing, hM, hR, hv, Option.some_bind, bind, Option.bind,
      pure] at h
    rw [Option.some.injEq] at h
    subst h
    simp only [hmb.2.2, hvr]
    exact round2_product_bound M (calculate_labor_hours task room_size [] * R) _ v
      hmb.1 hmb.2.1 hv0 hv2

/-- Witness for C3 (amended) at the painting example. -/
theorem task_pricing_tolerance_witness :
    |(639.54 : ℚ) - (120 + 364.5) * (1 + 0.2) * (1 + 0.1)| ≤ 21 / 1000 := by
  have h := task_pricing_tolerance "painting" 10 "paris" "standard"
    ⟨"painting", 120, 8.1, 45, 364.5, 484.5, 0.2, 96.9, 0.1, 58.14, 639.54, 1.0, 1⟩
    pricing_painting_eval
  simpa using h

lemma materials_demolition :
    get_material_cost "demolition" (2522 / 1009) "standard" = some (2522 / 1009 * 50) := rfl

lemma hours_demolition :
    calculate_labor_hours "demolition" (2522 / 1009) [] = 5044 / 1009 := by
  have h : calculate_labor_hours "demolition" (2522 / 1009) [] =
      max 4.0 ((2522 / 1009 : ℚ) * 2.0) := rfl
  rw [h, max_eq_right (by norm_num)]
  norm_num

lemma rate_nowhere : get_hourly_rate "nowhere" "demolition" = some 35.0 := rfl

lemma vat_demolition : get_vat_rate "demolition" "france" none = some 0.20 := rfl

lemma margin_demolition (s : ℚ) :
    calculate_dynamic_margin "demolition" "standard" s = 0.2 := by
  simp [calculate_dynamic_margin, base_margin, margin_protection_min]
  try norm_num

lemma pricing_demolition_eval :
    calculate_task_pricing "demolition" (2522 / 1009) "nowhere" "standard" =
      some ⟨"demolition", 124.98, 5044 / 1009, 35, 174.97, 299.94, 0.2, 59.99, 0.2, 71.99,
        431.91, 0.6, 1⟩ := by
  simp only [calculate_task_pricing, materials_demolition, hours_demolition, rate_nowhere,
    vat_demolition, margin_demolition, Option.some_bind, bind, Option.bind, pure]
  norm_num [round2, round3, round1, round_eq]

/-- C3 counterexample: for the unknown task `demolition`, room size
2522/1009 ≈ 2.4995 m², an unknown location and the standard tier, the
discrepancy between the stored `total_price` and
`(materials_cost + labor_cost)·(1 + margin_rate)·(1 + vat_rate)` is
exactly 0.018, which exceeds the claimed `1e-2` tolerance. -/
theorem task_pricing_tolerance_cex :
    (calculate_task_pricing "demolition" (2522 / 1009) "nowhere" "standard").map
      (fun tp => |tp.total_price -
        (tp.materials_cost + tp.labor_cost) * (1 + tp.margin_rate) * (1 + tp.vat_rate)|) =
      some (9 / 500) ∧
    ¬ ((9 : ℚ) / 500 ≤ 1 / 100) := by
  constructor
  · rw [pricing_demolition_eval]
    have hmap : ∀ (tp : TaskPricing) (f : TaskPricing → ℚ),
        (some tp).map f = some (f tp) := fun _ _ => rfl
    rw [hmap, Option.some.injEq]
    rw [abs_of_nonpos (by norm_num)]
    norm_num
  · norm_num

/-! ## C6: VAT rate resolution -/

lemma vat_rates_inv {s : String} {tbl : List (String × ℚ)}
    (h : vat_rates s = some tbl) :
    s = "france" ∨ s = "germany" ∨ s = "spain" ∨ s = "italy" := by
  unfold vat_rates at h
  split at h <;> simp_all

/-- The VAT-category resolution exactly as the specification words it:
category from the per-task, per-country table (defaults `standard`),
energy-efficiency override first, then accessibility, then the
France/building-age downgrade of a `standard` category to `reduced`;
the rate is the resolved category's entry in the resolved country's rate
table. -/
def vatRateSpec (task country : String) (conditions : Option VatConditions) : Option ℚ :=
  let ctry := if (vat_rates (strLower country)).isSome then strLower country else "france"
  let base :=
    match task_vat_categories task with
    | some m => (m.lookup ctry).getD "standard"
    | none => "standard"
  let cat :=
    match conditions with
    | none => base
    | some c =>
        if c.energy_efficiency then (energy_certification ctry).getD base
        else if c.accessibility_improvements then (accessibility_improvements ctry).getD base
        else if ctry = "france" ∧ c.building_age_years > 2 ∧ base = "standard" then "reduced"
        else base
  (vat_rates ctry).bind (fun rates => rates.lookup cat)

/-- C6: `get_vat_rate` implements the claimed category resolution
(country defaulted to `france`, category to `standard`, overrides in
priority order energy → accessibility → France building-age downgrade),
and the returned rate is always an entry of the resolved country's
configured rate table. -/
theorem get_vat_rate_spec (task country : String) (conditions : Option VatConditions) :
    get_vat_rate task country conditions = vatRateSpec task country conditions ∧
    ∃ r rates, get_vat_rate task country conditions = some r ∧
      vat_rates (if (vat_rates (strLower country)).isSome = true then strLower country
        else "france") = some rates ∧
      r ∈ rates.map Prod.snd := by
  constructor
  · cases conditions with
    | none => rfl
    | some c =>
        simp only [get_vat_rate, vatRateSpec, apply_vat_conditions]
        split_ifs <;> first | rfl | tauto
  · have hctry : (if (vat_rates (strLower country)).isSome = true then strLower country
        else "france") = "france" ∨
        (if (vat_rates (strLower country)).isSome = true then strLower country
        else "france") = "germany" ∨
        (if (vat_rates (strLower country)).isSome = true then strLower country
        else "france") = "spain" ∨
        (if (vat_rates (strLower country)).isSome = true then strLower country
        else "france") = "italy" := by
      cases hcv : vat_rates (strLower country) with
      | none => simp [hcv]
      | some tbl =>
          rcases vat_rates_inv hcv with hs | hs | hs | hs <;> simp [hcv, hs]
    simp only [get_vat_rate]
    rcases hctry with h | h | h | h <;> rw [h] <;>
      rcases hrow : task_vat_categories task with _ | row <;>
        (try rcases task_vat_categories_inv hrow with rfl | rfl | rfl) <;>
          rcases conditions with _ | c <;>
    first
      | exact ⟨_, _, rfl, rfl, by simp⟩
      | (simp only [apply_vat_conditions]
         by_cases h1 : c.energy_efficiency = true <;>
           by_cases h2 : c.accessibility_improvements = true <;>
             by_cases h3 : c.building_age_years > 2 <;>
               simp only [h1, h2, h3, if_true, if_false, Bool.false_eq_true, and_true,
                 and_false, String.reduceEq, ite_false, ite_true] <;>
                 exact ⟨_, _, rfl, rfl, by simp⟩)

/-! ## C7: unknown-key fallbacks, no errors -/

lemma materials_lookup_isSome {t : String} {tiers : List (String × MaterialTier)}
    (h : materials_data t = some tiers) (tier : String)
    (henum : tier = "budget_conscious" ∨ tier = "standard" ∨ tier = "premium") :
    (tiers.lookup tier).isSome = true := by
  unfold materials_data at h
  split at h <;> first
    | (cases h; rcases henum with rfl | rfl | rfl <;> rfl)
    | cases h

lemma get_material_cost_total (task tier : String) (room_size : ℚ)
    (henum : tier = "budget_conscious" ∨ tier = "standard" ∨ tier = "premium") :
    ∃ M, get_material_cost task room_size tier = some M := by
  rw [← Option.isSome_iff_exists]
  cases hmd : materials_data task with
  | none => simp [get_material_cost, hmd]
  | some tiers =>
      have hl := materials_lookup_isSome hmd tier henum
      simp [get_material_cost, hmd, hl]

lemma calculate_task_pricing_total (task location tier : String) (room_size : ℚ)
    (henum : tier = "budget_conscious" ∨ tier = "standard" ∨ tier = "premium") :
    (calculate_task_pricing task room_size location tier).isSome = true := by
  obtain ⟨M, hM⟩ := get_material_cost_total task tier room_size henum
  obtain ⟨R, hR, -⟩ := get_hourly_rate_total location task
  have hv : ∃ v, get_vat_rate task "france" none = some v := by
    rcases vat_france_cases task with hv | hv | hv <;> exact ⟨_, hv⟩
  obtain ⟨v, hv⟩ := hv
  simp [calculate_task_pricing, hM, hR, hv]

/-- C7: with a budget tier from the enum, every task/location combination
is priced without error; an unknown task falls back to materials
`room_size × (30/50/80 by tier)` and labor hours `max(4.0, room_size·2)`,
an unknown city falls back to the default city's (`marseille`) rate
table, and in particular the unknown task `demolition_extra` at 6 m²
under the standard tier yields 12 labor hours and 300 € of materials. -/
theorem unknown_key_fallbacks (task location tier : String) (room_size : ℚ)
    (henum : tier = "budget_conscious" ∨ tier = "standard" ∨ tier = "premium") :
    (calculate_task_pricing task room_size location tier).isSome = true ∧
    (materials_data task = none →
      get_material_cost task room_size tier =
        some (room_size *
          (if tier = "budget_conscious" then 30
           else if tier = "standard" then 50 else 80))) ∧
    (labor_hours_data task = none →
      calculate_labor_hours task room_size [] = max 4.0 (room_size * 2.0)) ∧
    (hourly_rates (strLower location) = none →
      ∃ r, get_hourly_rate location task = some r ∧
        get_hourly_rate "marseille" task = some r) ∧
    calculate_labor_hours "demolition_extra" 6 [] = 12 ∧
    get_material_cost "demolition_extra" 6 "standard" = some 300 := by
  refine ⟨calculate_task_pricing_total task location tier room_size henum, ?_, ?_, ?_, ?_, ?_⟩
  · intro hmd
    rcases henum with rfl | rfl | rfl <;> simp only [get_material_cost, hmd] <;> rfl
  · intro h
    simp only [calculate_labor_hours, h]
  · intro hcity
    rcases skill_level_cases task with hs | hs
    · refine ⟨35.0, ?_, ?_⟩
      · simp only [get_hourly_rate, hcity, Option.isSome_none, Bool.false_eq_true,
          if_false, hs]
        rfl
      · simp only [get_hourly_rate, hs]
        rfl
    · refine ⟨50.0, ?_, ?_⟩
      · simp only [get_hourly_rate, hcity, Option.isSome_none, Bool.false_eq_true,
          if_false, hs]
        rfl
      · simp only [get_hourly_rate, hs]
        rfl
  · have h : calculate_labor_hours "demolition_extra" 6 [] = max 4.0 ((6 : ℚ) * 2.0) := rfl
    rw [h, max_eq_right (by norm_num)]
    norm_num
  · have h : get_material_cost "demolition_extra" 6 "standard" = some ((6 : ℚ) * 50) := rfl
    rw [h]
    norm_num

/-- Witness for C7 at the unknown task `demolition_extra`, an unknown
location, and the standard tier. -/
theorem unknown_key_fallbacks_witness :
    (calculate_task_pricing "demolition_extra" 6 "atlantis" "standard").isSome = true ∧
    calculate_labor_hours "demolition_extra" 6 [] = 12 ∧
    get_material_cost "demolition_extra" 6 "standard" = some 300 := by
  have h := unknown_key_fallbacks "demolition_extra" "atlantis" "standard" 6
    (Or.inr (Or.inl rfl))
  exact ⟨h.1, h.2.2.2.2.1, h.2.2.2.2.2⟩

/-! ## C10: case-sensitive city lookup vs lowercased rate lookup -/

lemma city_keys_agree (s : String) :
    (city_multipliers s).isSome = (hourly_rates s).isSome := by
  unfold city_multipliers hourly_rates
  split <;> rfl

/-- C10: for a location that is a known city only after lowercasing, the
engine resolves a city multiplier of 1.0 (the dictionary lookup is exact
and case-sensitive) and grants no known-city confidence bonus, yet
`get_hourly_rate`, which lowercases first, prices labor from that city's
own rate table. -/
theorem quote_city_case_mismatch (location task : String)
    (h1 : city_multipliers location = none)
    (h2 : (city_multipliers (strLower location)).isSome = true) :
    (city_multipliers location).getD 1.0 = 1.0 ∧
    (city_multipliers location).isSome = false ∧
    (∀ p : ParsedInput, p.location = location →
      calculate_confidence_score p =
        max 0 (min 1 (round2
          (1 - 0.1 * p.confidence_flags.length
            - (if p.tasks.length < 3 then 0.1 else 0)
            - (if p.room_size < 2 ∨ p.room_size > 30 then 0.15 else 0))))) ∧
    (∃ rates, hourly_rates (strLower location) = some rates ∧
      get_hourly_rate location task =
        rates.lookup
          (match labor_hours_data task with
           | some td => td.skill_level
           | none => "general")) := by
  refine ⟨by rw [h1]; rfl, by rw [h1]; rfl, ?_, ?_⟩
  · intro p hp
    unfold calculate_confidence_score
    rw [hp, h1]
    simp only [Option.isSome_none, Bool.false_eq_true, if_false]
    split_ifs <;> simp_all <;> ring_nf
  · have hh2 : (hourly_rates (strLower location)).isSome = true := by
      rw [← city_keys_agree]
      exact h2
    rcases Option.isSome_iff_exists.mp hh2 with ⟨rates, hr⟩
    refine ⟨rates, hr, ?_⟩
    simp [get_hourly_rate, hr]

/-- Witness for C10 at location `Paris` (capitalised) and task
`painting`. -/
theorem quote_city_case_mismatch_witness :
    (city_multipliers "Paris").getD 1.0 = 1.0 ∧
    (city_multipliers "Paris").isSome = false ∧
    get_hourly_rate "Paris" "painting" = some 45.0 := by
  have h := quote_city_case_mismatch "Paris" "painting" rfl rfl
  refine ⟨h.1, h.2.1, ?_⟩
  obtain ⟨rates, hr, he⟩ := h.2.2.2
  rw [show strLower "Paris" = "paris" from by decide] at hr
  have hrates : rates = [("general", 45.0), ("specialized", 65.0), ("expert", 85.0)] := by
    have : hourly_rates "paris" =
        some [("general", (45.0 : ℚ)), ("specialized", 65.0), ("expert", 85.0)] := rfl
    rw [this] at hr
    exact (Option.some.injEq _ _).mp hr.symm
  rw [he, hrates]
  rfl

/-! ## Traversal and list lemmas for the quote aggregate -/

lemma traverseOpt_isSome {α β : Type} (f : α → Option β) (l : List α)
    (h : ∀ a ∈ l, (f a).isSome = true) : ∃ l', traverseOpt f l = some l' := by
  induction l with
  | nil => exact ⟨[], rfl⟩
  | cons a l ih =>
      obtain ⟨b, hb⟩ := Option.isSome_iff_exists.mp (h a (List.mem_cons_self a l))
      obtain ⟨l', hl'⟩ := ih (fun x hx => h x (List.mem_cons_of_mem a hx))
      exact ⟨b :: l', by simp [traverseOpt, hb, hl']⟩

lemma traverseOpt_length {α β : Type} {f : α → Option β} :
    ∀ {l : List α} {l' : List β}, traverseOpt f l = some l' → l'.length = l.length := by
  intro l
  induction l with
  | nil => intro l' h; cases h; rfl
  | cons a l ih =>
      intro l' h
      rcases ha : f a with _ | b
      · rw [traverseOpt, ha] at h; cases h
      · rw [traverseOpt, ha] at h
        rcases hl : traverseOpt f l with _ | l₀
        · rw [hl] at h; cases h
        · rw [hl] at h
          cases h
          simp [ih hl]

lemma traverseOpt_zip_mem {α β : Type} {f : α → Option β} :
    ∀ {l : List α} {l' : List β}, traverseOpt f l = some l' →
      ∀ {a b}, (a, b) ∈ l.zip l' → f a = some b := by
  intro l
  induction l with
  | nil => intro l' _ a b hm; simp at hm
  | cons x l ih =>
      intro l' h a b hm
      rcases hx : f x with _ | y
      · rw [traverseOpt, hx] at h; cases h
      · rw [traverseOpt, hx] at h
        rcases hl : traverseOpt f l with _ | l₀
        · rw [hl] at h; cases h
        · rw [hl] at h
          cases h
          rcases List.mem_cons.mp hm with heq | hmem
          · cases heq
            exact hx
          · exact ih hl hmem

lemma traverseOpt_map_sum {α β : Type} {f : α → Option β} (g : β → ℚ) :
    ∀ {l : List α} {l' : List β}, traverseOpt f l = some l' →
      (l'.map g).sum = (l.map (fun a => ((f a).map g).getD 0)).sum := by
  intro l
  induction l with
  | nil => intro l' h; cases h; rfl
  | cons a l ih =>
      intro l' h
      rcases ha : f a with _ | b
      · rw [traverseOpt, ha] at h; cases h
      · rw [traverseOpt, ha] at h
        rcases hl : traverseOpt f l with _ | l₀
        · rw [hl] at h; cases h
        · rw [hl] at h
          cases h
          simp [ha, ih hl]

lemma round2_ge {y c : ℚ} (h : c + 1 / 200 ≤ y) : c ≤ round2 y := by
  have habs := abs_round2_sub y
  rw [abs_le] at habs
  linarith [habs.1, habs.2]

lemma city_multiplier_pos (s : String) : 0 < (city_multipliers s).getD 1.0 := by
  unfold city_multipliers
  split <;> norm_num

lemma list_sum_le_of_sublist {S L : List String} (f : String → ℚ) (hsub : S.Sublist L)
    (hpos : ∀ x ∈ L, 0 < f x) :
    (S.map f).sum ≤ (L.map f).sum ∧
      (S.length < L.length → (S.map f).sum < (L.map f).sum) := by
  induction hsub with
  | slnil => simp
  | @cons S L a hs ih =>
      obtain ⟨h1, -⟩ := ih (fun x hx => hpos x (List.mem_cons_of_mem a hx))
      have ha : 0 < f a := hpos a (List.mem_cons_self a L)
      constructor
      · simp only [List.map_cons, List.sum_cons]
        linarith
      · intro _
        simp only [List.map_cons, List.sum_cons]
        linarith
  | @cons₂ S L a hs ih =>
      obtain ⟨h1, h2⟩ := ih (fun x hx => hpos x (List.mem_cons_of_mem a hx))
      constructor
      · simp only [List.map_cons, List.sum_cons]
        linarith
      · intro hlen
        simp only [List.length_cons, Nat.add_lt_add_iff_right] at hlen
        have := h2 hlen
        simp only [List.map_cons, List.sum_cons]
        linarith

lemma dedup_sum_lt {l : List String} (f : String → ℚ)
    (hpos : ∀ x ∈ l, 0 < f x) (hdup : ¬ l.Nodup) :
    (l.dedup.map f).sum < (l.map f).sum := by
  have hsub : l.dedup.Sublist l := List.dedup_sublist l
  have hlen : l.dedup.length < l.length := by
    rcases lt_or_eq_of_le hsub.length_le with h | h
    · exact h
    · exfalso
      have heq : l.dedup = l := hsub.eq_of_length h
      rw [← heq] at hdup
      exact hdup (List.nodup_dedup l)
  exact (list_sum_le_of_sublist f hsub hpos).2 hlen

lemma lookup_mem_snd {β : Type} {k : String} {v : β} :
    ∀ {l : List (String × β)}, l.lookup k = some v → v ∈ l.map Prod.snd := by
  intro l
  induction l with
  | nil => intro h; cases h
  | cons kv l ih =>
      intro h
      obtain ⟨k', b⟩ := kv
      rw [List.lookup] at h
      cases hb : (k == k') with
      | true =>
          rw [hb] at h
          cases h
          simp
      | false =>
          rw [hb] at h
          simp only [List.map_cons, List.mem_cons]
          exact Or.inr (ih h)

lemma materials_entries_nonneg {t : String} {tiers : List (String × MaterialTier)}
    (h : materials_data t = some tiers) :
    ∀ td ∈ tiers.map Prod.snd, 0 ≤ td.base_cost.getD 0 ∧
      ∀ c, td.cost_per_m2 = some c → 0 ≤ c := by
  unfold materials_data at h
  split at h <;> first
    | (cases h
       intro td htd
       simp only [List.map_cons, List.map_nil, List.mem_cons, List.not_mem_nil,
         or_false] at htd
       rcases htd with rfl | rfl | rfl <;>
         exact ⟨by norm_num, fun c hc => by cases hc <;> norm_num⟩)
    | cases h

lemma get_material_cost_nonneg {task tier : String} {r M : ℚ}
    (h : get_material_cost task r tier = some M) (hr : 0 ≤ r) : 0 ≤ M := by
  rcases hmd : materials_data task with _ | tiers <;>
    simp only [get_material_cost, hmd] at h
  · rcases hl : [("budget_conscious", (30 : ℚ)), ("standard", 50),
        ("premium", 80)].lookup tier with _ | v <;> rw [hl] at h
    · cases h
      exact mul_nonneg hr (by norm_num)
    · have hv : v ∈ [(30 : ℚ), 50, 80] := by
        have := lookup_mem_snd hl
        simpa using this
      cases h
      simp only [List.mem_cons, List.not_mem_nil, or_false] at hv
      rcases hv with rfl | rfl | rfl <;> simp only [Option.getD_some] <;>
        exact mul_nonneg hr (by norm_num)
  · rcases hlt : tiers.lookup tier with _ | td <;> rw [hlt] at h
    · cases h
    · have htd := materials_entries_nonneg hmd td (lookup_mem_snd hlt)
      cases h
      rcases hc : td.cost_per_m2 with _ | c
      · simp only [hc]
        linarith [htd.1]
      · simp only [hc]
        have := htd.2 c hc
        have hcr : 0 ≤ c * r := mul_nonneg this hr
        linarith [htd.1]

lemma hours_lower_bound (t : String) {r : ℚ} (hr : 0 ≤ r) :
    0.85 ≤ calculate_labor_hours t r [] := by
  have hs : (complexity_multipliers "small_room").getD 1 = 1.1 := rfl
  have hl : (complexity_multipliers "large_room").getD 1 = 0.95 := rfl
  rcases hd : labor_hours_data t with _ | td
  · have he : calculate_labor_hours t r [] = max 4.0 (r * 2.0) := by
      simp only [calculate_labor_hours, hd]
    rw [he]
    exact le_trans (by norm_num) (le_max_left _ _)
  · rcases labor_hours_data_inv hd with rfl | rfl | rfl | rfl | rfl | rfl | rfl <;>
      simp only [calculate_labor_hours, hd, List.foldl_nil, hs, hl] <;>
        split_ifs <;> (apply round2_ge; nlinarith [hr])

/-- The priced value of one field of a task's pricing record, as used in
the aggregate statements below (0 when the pricing fails). -/
def priced_field (p : ParsedInput) (g : TaskPricing → ℚ) (t : String) : ℚ :=
  ((calculate_task_pricing t p.room_size p.location p.budget_preference).map g).getD 0

lemma priced_total_pos (p : ParsedInput)
    (henum : p.budget_preference = "budget_conscious" ∨
      p.budget_preference = "standard" ∨ p.budget_preference = "premium")
    (hr : 0 ≤ p.room_size) (t : String) :
    0 < priced_field p TaskPricing.total_price t := by
  obtain ⟨M, hM⟩ := get_material_cost_total t p.budget_preference p.room_size henum
  have hM0 : 0 ≤ M := get_material_cost_nonneg hM hr
  obtain ⟨R, hR, hR32⟩ := get_hourly_rate_total p.location t
  have hH := hours_lower_bound t hr
  have hv3 : ∃ v, get_vat_rate t "france" none = some v ∧ 0 ≤ v := by
    rcases vat_france_cases t with hv | hv | hv <;> exact ⟨_, hv, by norm_num⟩
  obtain ⟨v, hv, hv0⟩ := hv3
  have hmarg := margin_bounds t p.budget_preference
    (M + calculate_labor_hours t p.room_size [] * R)
  unfold priced_field
  simp only [calculate_task_pricing, hM, hR, hv, Option.some_bind, bind, Option.bind, pure,
    Option.map_some', Option.getD_some]
  have hL : (27 : ℚ) ≤ calculate_labor_hours t p.room_size [] * R := by
    nlinarith [mul_nonneg
      (by linarith : (0 : ℚ) ≤ calculate_labor_hours t p.room_size [] - 0.85)
      (by linarith : (0 : ℚ) ≤ R - 32)]
  have hS0 : (0 : ℚ) ≤ M + calculate_labor_hours t p.room_size [] * R := by linarith
  have hm0 : (0 : ℚ) ≤ calculate_dynamic_margin t p.budget_preference
      (M + calculate_labor_hours t p.room_size [] * R) := by linarith [hmarg.1]
  have h26 : (26 : ℚ) ≤ round2
      (M + calculate_labor_hours t p.room_size [] * R +
        (M + calculate_labor_hours t p.room_size [] * R) *
          calculate_dynamic_margin t p.budget_preference
            (M + calculate_labor_hours t p.room_size [] * R) +
        (M + calculate_labor_hours t p.room_size [] * R +
          (M + calculate_labor_hours t p.room_size [] * R) *
            calculate_dynamic_margin t p.budget_preference
              (M + calculate_labor_hours t p.room_size [] * R)) * v) := by
    apply round2_ge
    nlinarith [mul_nonneg hS0 hm0,
      mul_nonneg (add_nonneg hS0 (mul_nonneg hS0 hm0)) hv0]
  linarith

/-! ## C2: the city multiplier frame property -/

/-- C2: after pricing, the resolved city multiplier (1.0 for an unknown
location) scales each stored task's `total_price` in place and the zone
total; the stored per-task `materials_cost`, `labor_cost`,
`margin_amount` and `vat_amount` are unchanged, and every summary
aggregate is the sum of the unscaled per-task values times the
multiplier (rounded at the point of inclusion). -/
theorem quote_city_multiplier_frame (p : ParsedInput)
    (henum : p.budget_preference = "budget_conscious" ∨
      p.budget_preference = "standard" ∨ p.budget_preference = "premium") :
    ∃ q, generate_quote p = some q ∧
      (∀ t tp, (t, tp) ∈ q.zone_tasks →
        ∃ tp₀, calculate_task_pricing t p.room_size p.location p.budget_preference =
            some tp₀ ∧
          tp.total_price = tp₀.total_price * ((city_multipliers p.location).getD 1.0) ∧
          tp.materials_cost = tp₀.materials_cost ∧
          tp.labor_cost = tp₀.labor_cost ∧
          tp.margin_amount = tp₀.margin_amount ∧
          tp.vat_amount = tp₀.vat_amount) ∧
      q.zone_total = round2 ((p.tasks.map (priced_field p TaskPricing.total_price)).sum *
        ((city_multipliers p.location).getD 1.0)) ∧
      q.summary.total_materials =
        round2 ((p.tasks.dedup.map (priced_field p TaskPricing.materials_cost)).sum *
          ((city_multipliers p.location).getD 1.0)) ∧
      q.summary.total_labor =
        round2 ((p.tasks.dedup.map (priced_field p TaskPricing.labor_cost)).sum *
          ((city_multipliers p.location).getD 1.0)) ∧
      q.summary.subtotal_before_vat =
        round2 (((p.tasks.dedup.map (priced_field p TaskPricing.materials_cost)).sum +
          (p.tasks.dedup.map (priced_field p TaskPricing.labor_cost)).sum) *
          ((city_multipliers p.location).getD 1.0)) ∧
      q.summary.total_vat =
        round2 ((p.tasks.dedup.map (priced_field p TaskPricing.vat_amount)).sum *
          ((city_multipliers p.location).getD 1.0)) := by
  have hall : ∀ t ∈ p.tasks,
      (calculate_task_pricing t p.room_size p.location p.budget_preference).isSome = true :=
    fun t _ => calculate_task_pricing_total t p.location p.budget_preference p.room_size henum
  obtain ⟨priced, hpriced⟩ := traverseOpt_isSome _ _ hall
  obtain ⟨distinct, hdist⟩ := traverseOpt_isSome
    (fun t => calculate_task_pricing t p.room_size p.location p.budget_preference)
    p.tasks.dedup (fun t _ =>
      calculate_task_pricing_total t p.location p.budget_preference p.room_size henum)
  have hsome : ∃ q, generate_quote p = some q := by
    simp only [generate_quote, hpriced, hdist, Option.some_bind, bind, Option.bind, pure]
    exact ⟨_, rfl⟩
  obtain ⟨q, hq⟩ := hsome
  have hqkeep := hq
  simp only [generate_quote, hpriced, hdist, Option.some_bind, bind, Option.bind, pure] at hq
  rw [Option.some.injEq] at hq
  subst hq
  refine ⟨_, hqkeep, ?_, ?_, ?_, ?_, ?_, ?_⟩
  · intro t tp hmem
    replace hmem : (t, tp) ∈ p.tasks.dedup.zip
        (distinct.map (scale_task ((city_multipliers p.location).getD 1.0))) := hmem
    rw [List.zip_map_right] at hmem
    obtain ⟨⟨t', tp₀⟩, hmem₀, heq⟩ := List.mem_map.mp hmem
    simp only [Prod.map, id] at heq
    cases heq
    exact ⟨tp₀, traverseOpt_zip_mem hdist hmem₀, rfl, rfl, rfl, rfl, rfl⟩
  · show round2 ((priced.map TaskPricing.total_price).sum *
        ((city_multipliers p.location).getD 1.0)) = _
    rw [traverseOpt_map_sum TaskPricing.total_price hpriced]
    rfl
  · show round2 (((distinct.map
        (scale_task ((city_multipliers p.location).getD 1.0))).map
          TaskPricing.materials_cost).sum * ((city_multipliers p.location).getD 1.0)) = _
    rw [List.map_map,
      show TaskPricing.materials_cost ∘
          scale_task ((city_multipliers p.location).getD 1.0) =
        TaskPricing.materials_cost from rfl,
      traverseOpt_map_sum TaskPricing.materials_cost hdist]
    rfl
  · show round2 (((distinct.map
        (scale_task ((city_multipliers p.location).getD 1.0))).map
          TaskPricing.labor_cost).sum * ((city_multipliers p.location).getD 1.0)) = _
    rw [List.map_map,
      show TaskPricing.labor_cost ∘
          scale_task ((city_multipliers p.location).getD 1.0) =
        TaskPricing.labor_cost from rfl,
      traverseOpt_map_sum TaskPricing.labor_cost hdist]
    rfl
  · show round2 ((((distinct.map
        (scale_task ((city_multipliers p.location).getD 1.0))).map
          TaskPricing.materials_cost).sum +
        ((distinct.map (scale_task ((city_multipliers p.location).getD 1.0))).map
          TaskPricing.labor_cost).sum) * ((city_multipliers p.location).getD 1.0)) = _
    rw [List.map_map, List.map_map,
      show TaskPricing.materials_cost ∘
          scale_task ((city_multipliers p.location).getD 1.0) =
        TaskPricing.materials_cost from rfl,
      show TaskPricing.labor_cost ∘
          scale_task ((city_multipliers p.location).getD 1.0) =
        TaskPricing.labor_cost from rfl,
      traverseOpt_map_sum TaskPricing.materials_cost hdist,
      traverseOpt_map_sum TaskPricing.labor_cost hdist]
    rfl
  · show round2 (((distinct.map
        (scale_task ((city_multipliers p.location).getD 1.0))).map
          TaskPricing.vat_amount).sum * ((city_multipliers p.location).getD 1.0)) = _
    rw [List.map_map,
      show TaskPricing.vat_amount ∘
          scale_task ((city_multipliers p.location).getD 1.0) =
        TaskPricing.vat_amount from rfl,
      traverseOpt_map_sum TaskPricing.vat_amount hdist]
    rfl

/-- Witness for C2 at a one-task parsed input (painting, 10 m², paris,
standard). -/
theorem quote_city_multiplier_frame_witness :
    ∃ q, generate_quote ⟨"paris", "standard", "bathroom", 10, ["painting"], []⟩ = some q ∧
      (∀ t tp, (t, tp) ∈ q.zone_tasks →
        ∃ tp₀, calculate_task_pricing t 10 "paris" "standard" = some tp₀ ∧
          tp.total_price = tp₀.total_price * ((city_multipliers "paris").getD 1.0) ∧
          tp.materials_cost = tp₀.materials_cost ∧
          tp.labor_cost = tp₀.labor_cost ∧
          tp.margin_amount = tp₀.margin_amount ∧
          tp.vat_amount = tp₀.vat_amount) ∧
      q.zone_total = round2 (((["painting"] : List String).map
        (priced_field ⟨"paris", "standard", "bathroom", 10, ["painting"], []⟩
          TaskPricing.total_price)).sum * ((city_multipliers "paris").getD 1.0)) ∧
      q.summary.total_materials = round2 (((["painting"] : List String).dedup.map
        (priced_field ⟨"paris", "standard", "bathroom", 10, ["painting"], []⟩
          TaskPricing.materials_cost)).sum * ((city_multipliers "paris").getD 1.0)) ∧
      q.summary.total_labor = round2 (((["painting"] : List String).dedup.map
        (priced_field ⟨"paris", "standard", "bathroom", 10, ["painting"], []⟩
          TaskPricing.labor_cost)).sum * ((city_multipliers "paris").getD 1.0)) ∧
      q.summary.subtotal_before_vat = round2 ((((["painting"] : List String).dedup.map
        (priced_field ⟨"paris", "standard", "bathroom", 10, ["painting"], []⟩
          TaskPricing.materials_cost)).sum +
        ((["painting"] : List String).dedup.map
          (priced_field ⟨"paris", "standard", "bathroom", 10, ["painting"], []⟩
            TaskPricing.labor_cost)).sum) * ((city_multipliers "paris").getD 1.0)) ∧
      q.summary.total_vat = round2 (((["painting"] : List String).dedup.map
        (priced_field ⟨"paris", "standard", "bathroom", 10, ["painting"], []⟩
          TaskPricing.vat_amount)).sum * ((city_multipliers "paris").getD 1.0)) :=
  quote_city_multiplier_frame ⟨"paris", "standard", "bathroom", 10, ["painting"], []⟩
    (Or.inr (Or.inl rfl))

/-! ## C9: zone total counts multiplicity, the task dictionary does not -/

/-- C9: the pre-rounding zone total is the city multiplier times the sum
of per-task totals over the task list with multiplicity, while the task
dictionary keeps one entry per distinct task name; for a duplicate-free
list the two agree, and for a list with a duplicated task the
pre-rounding zone total strictly exceeds the sum of the stored tasks'
`total_price` values. -/
theorem zone_total_multiplicity (p : ParsedInput)
    (henum : p.budget_preference = "budget_conscious" ∨
      p.budget_preference = "standard" ∨ p.budget_preference = "premium")
    (hr : 0 ≤ p.room_size) :
    ∃ q, generate_quote p = some q ∧
      q.zone_tasks.map Prod.fst = p.tasks.dedup ∧
      (q.zone_tasks.map Prod.fst).Nodup ∧
      q.zone_total = round2 ((p.tasks.map (priced_field p TaskPricing.total_price)).sum *
        ((city_multipliers p.location).getD 1.0)) ∧
      (p.tasks.Nodup →
        q.zone_total =
          round2 ((p.tasks.dedup.map (priced_field p TaskPricing.total_price)).sum *
            ((city_multipliers p.location).getD 1.0))) ∧
      (¬ p.tasks.Nodup →
        (q.zone_tasks.map (fun kv => kv.2.total_price)).sum <
          (p.tasks.map (priced_field p TaskPricing.total_price)).sum *
            ((city_multipliers p.location).getD 1.0)) := by
  have hall : ∀ t ∈ p.tasks,
      (calculate_task_pricing t p.room_size p.location p.budget_preference).isSome = true :=
    fun t _ => calculate_task_pricing_total t p.location p.budget_preference p.room_size henum
  obtain ⟨priced, hpriced⟩ := traverseOpt_isSome _ _ hall
  obtain ⟨distinct, hdist⟩ := traverseOpt_isSome
    (fun t => calculate_task_pricing t p.room_size p.location p.budget_preference)
    p.tasks.dedup (fun t _ =>
      calculate_task_pricing_total t p.location p.budget_preference p.room_size henum)
  have hsome : ∃ q, generate_quote p = some q := by
    simp only [generate_quote, hpriced, hdist, Option.some_bind, bind, Option.bind, pure]
    exact ⟨_, rfl⟩
  obtain ⟨q, hq⟩ := hsome
  have hqkeep := hq
  simp only [generate_quote, hpriced, hdist, Option.some_bind, bind, Option.bind, pure] at hq
  rw [Option.some.injEq] at hq
  subst hq
  have hlen : (distinct.map
      (scale_task ((city_multipliers p.location).getD 1.0))).length =
      p.tasks.dedup.length := by
    rw [List.length_map, traverseOpt_length hdist]
  have hkeys : (p.tasks.dedup.zip
      (distinct.map (scale_task ((city_multipliers p.location).getD 1.0)))).map Prod.fst =
      p.tasks.dedup :=
    List.map_fst_zip _ _ (le_of_eq hlen.symm)
  have hzone : round2 ((priced.map TaskPricing.total_price).sum *
      ((city_multipliers p.location).getD 1.0)) =
      round2 ((p.tasks.map (priced_field p TaskPricing.total_price)).sum *
        ((city_multipliers p.location).getD 1.0)) := by
    rw [traverseOpt_map_sum TaskPricing.total_price hpriced]
    rfl
  refine ⟨_, hqkeep, hkeys, ?_, hzone, ?_, ?_⟩
  · rw [hkeys]
    exact List.nodup_dedup p.tasks
  · intro hnd
    rw [List.dedup_eq_self.mpr hnd]
    exact hzone
  · intro hdup
    have hstored : ((p.tasks.dedup.zip
        (distinct.map (scale_task ((city_multipliers p.location).getD 1.0)))).map
          (fun kv => kv.2.total_price)).sum =
        (p.tasks.dedup.map (priced_field p TaskPricing.total_price)).sum *
          ((city_multipliers p.location).getD 1.0) := by
      rw [show (fun kv : String × TaskPricing => kv.2.total_price) =
          TaskPricing.total_price ∘ Prod.snd from rfl,
        ← List.map_map, List.map_snd_zip _ _ (le_of_eq hlen), List.map_map,
        show TaskPricing.total_price ∘
            scale_task ((city_multipliers p.location).getD 1.0) =
          fun tp => tp.total_price * ((city_multipliers p.location).getD 1.0) from rfl,
        List.sum_map_mul_right, traverseOpt_map_sum TaskPricing.total_price hdist]
      rfl
    show ((p.tasks.dedup.zip
        (distinct.map (scale_task ((city_multipliers p.location).getD 1.0)))).map
          (fun kv => kv.2.total_price)).sum < _
    rw [hstored]
    exact mul_lt_mul_of_pos_right
      (dedup_sum_lt _ (fun x _ => priced_total_pos p henum hr x) hdup)
      (city_multiplier_pos p.location)

/-- Witness for C9 at a parsed input whose task list repeats `painting`. -/
theorem zone_total_multiplicity_witness :
    ∃ q, generate_quote
        ⟨"paris", "standard", "bathroom", 10, ["painting", "painting"], []⟩ = some q ∧
      q.zone_tasks.map Prod.fst = (["painting", "painting"] : List String).dedup ∧
      (q.zone_tasks.map Prod.fst).Nodup ∧
      q.zone_total = round2 (((["painting", "painting"] : List String).map
        (priced_field ⟨"paris", "standard", "bathroom", 10, ["painting", "painting"], []⟩
          TaskPricing.total_price)).sum * ((city_multipliers "paris").getD 1.0)) ∧
      ((["painting", "painting"] : List String).Nodup →
        q.zone_total = round2 (((["painting", "painting"] : List String).dedup.map
          (priced_field ⟨"paris", "standard", "bathroom", 10, ["painting", "painting"], []⟩
            TaskPricing.total_price)).sum * ((city_multipliers "paris").getD 1.0))) ∧
      (¬ (["painting", "painting"] : List String).Nodup →
        (q.zone_tasks.map (fun kv => kv.2.total_price)).sum <
          ((["painting", "painting"] : List String).map
            (priced_field ⟨"paris", "standard", "bathroom", 10, ["painting", "painting"], []⟩
              TaskPricing.total_price)).sum * ((city_multipliers "paris").getD 1.0)) :=
  zone_total_multiplicity
    ⟨"paris", "standard", "bathroom", 10, ["painting", "painting"], []⟩
    (Or.inr (Or.inl rfl)) (by norm_num)
